import Mathlib

/-
Shallow embedding of the two renderer adapters of this repository:
`src/src/js/renderers/vimeo.js` and `src/src/js/renderers/soundcloud.js`.

JavaScript numbers are modelled as rationals (ℚ); the dynamically typed
values flowing through the adapters are modelled by the sum type `JsVal`.
Promise-returning remote calls are modelled synchronously, parameterised by
an `Outcome` describing whether the underlying promise resolves or rejects;
the `.then` / `['catch']` continuations of the source are inlined into the
corresponding branch.  Remote calls issued on the widget, events dispatched
on the owning media element, exceptions escaping a callback, and console
logs are collected in an `Effect` record.
-/

/-- A JavaScript value as used by the adapters. `srcObj s` models the
non-string argument shape `value[0].src = s` accepted by the `src` setters. -/
inductive JsVal where
  | undef
  | null
  | nanV
  | num (q : ℚ)
  | bool (b : Bool)
  | str (s : String)
  | srcObj (src : String)
  | buffered (startV endV : JsVal) (len : ℚ)
deriving DecidableEq, Repr

/-- JavaScript strict equality `===` restricted to the value shapes the
adapters compare (`volume === 0`). `NaN === NaN` is `false`. -/
def jsStrictEq : JsVal → JsVal → Bool
  | .num a, .num b => a == b
  | .bool a, .bool b => a == b
  | .str a, .str b => a == b
  | .null, .null => true
  | .undef, .undef => true
  | _, _ => false

/-- JavaScript truthiness of a `JsVal`. -/
def jsTruthy : JsVal → Bool
  | .undef => false
  | .null => false
  | .nanV => false
  | .num q => q != 0
  | .bool b => b
  | .str s => s != ""
  | .srcObj _ => true
  | .buffered _ _ _ => true

/-- JavaScript multiplication restricted to the uses in the adapters
(`bufferedTime * duration`, `value * 1000`): number times number is a
number, anything else is `NaN`. -/
def jsMul : JsVal → JsVal → JsVal
  | .num a, .num b => .num (a * b)
  | _, _ => .nanV

/-- The `> 0` comparison used by the SoundCloud `LOAD_PROGRESS` handler
(`if (duration > 0)`); comparisons against `NaN` or non-numbers are false. -/
def jsGtZero : JsVal → Bool
  | .num q => decide (0 < q)
  | _ => false

/-- Argument type of `getVimeoId`: the source distinguishes `undefined`,
`null` and an actual string. -/
inductive JsStr where
  | undef
  | null
  | str (s : String)
deriving DecidableEq, Repr

/-- Result of `getVimeoId` / `parseInt`: JavaScript `null`, `NaN`, or a
numeric value. -/
inductive JsIdResult where
  | null
  | nan
  | num (n : Int)
deriving DecidableEq, Repr

/-- JavaScript `StrWhiteSpaceChar` subset relevant to `parseInt` trimming. -/
def isJsSpace (c : Char) : Bool :=
  c == ' ' || c == '\t' || c == '\n' || c == '\r'

/-- Decimal digit value of a character, if any. -/
def digitVal (c : Char) : Option Nat :=
  if c.isDigit then some (c.toNat - 48) else none

/-- Hexadecimal digit value of a character, if any. -/
def hexVal (c : Char) : Option Nat :=
  if c.isDigit then some (c.toNat - 48)
  else if 'a' ≤ c ∧ c ≤ 'f' then some (c.toNat - 97 + 10)
  else if 'A' ≤ c ∧ c ≤ 'F' then some (c.toNat - 65 + 10)
  else none

/-- Accumulate the longest digit run at the head of the list. -/
def parseDigitsAux (dv : Char → Option Nat) (base : Nat) : List Char → Nat → Nat
  | [], acc => acc
  | c :: rest, acc =>
    match dv c with
    | some d => parseDigitsAux dv base rest (acc * base + d)
    | none => acc

/-- Parse the leading digit run; `NaN` when there is no leading digit,
matching `parseInt`. -/
def jsParseIntCore (dv : Char → Option Nat) (base : Nat) : List Char → JsIdResult
  | [] => .nan
  | c :: rest =>
    match dv c with
    | some _ => .num (Int.ofNat (parseDigitsAux dv base (c :: rest) 0))
    | none => .nan

/-- JavaScript `parseInt(s)` with the default radix: skip leading
whitespace, an optional sign, a `0x`/`0X` prefix selects base 16,
otherwise base 10; `NaN` when no digits follow. -/
def jsParseInt (s : String) : JsIdResult :=
  let l := s.data.dropWhile isJsSpace
  let signNeg : Bool := match l with
    | '-' :: _ => true
    | _ => false
  let l1 : List Char := match l with
    | '-' :: r => r
    | '+' :: r => r
    | _ => l
  let res : JsIdResult := match l1 with
    | '0' :: 'x' :: r => jsParseIntCore hexVal 16 r
    | '0' :: 'X' :: r => jsParseIntCore hexVal 16 r
    | _ => jsParseIntCore digitVal 10 l1
  match res with
  | .num n => .num (if signNeg then -n else n)
  | x => x

/-- `url.split(QMARK)[0]`: the characters before the first question mark. -/
def takeBeforeQuery (l : List Char) : List Char :=
  l.takeWhile (fun c => c != '?')

/-- `url.substring(url.lastIndexOf(SLASH) + 1)`: the characters after the
last slash (the whole string when there is none, since `lastIndexOf`
returns `-1`). -/
def afterLastSlash (l : List Char) : List Char :=
  (l.reverse.takeWhile (fun c => c != '/')).reverse

/-- `vimeoApi.getVimeoId` (vimeo.js lines 129-139): `null` for `undefined`
or `null` input; otherwise strip the query string, take the trailing path
segment, and `parseInt` it. -/
def getVimeoId : JsStr → JsIdResult
  | .undef => .null
  | .null => .null
  | .str s => jsParseInt (String.mk (afterLastSlash (takeBeforeQuery s.data)))

/-- JavaScript `Array.prototype.indexOf` on a list of strings. -/
def jsIndexOf : List String → String → Int
  | [], _ => -1
  | a :: rest, t =>
    if a = t then 0
    else
      let r := jsIndexOf rest t
      if r = -1 then -1 else r + 1

/-- `vimeoIframeRenderer.canPlayType` (vimeo.js lines 176-180). -/
def vimeoCanPlayType (type_ : String) : Bool :=
  decide (jsIndexOf ["video/vimeo", "video/x-vimeo"] type_ > -1)

/-- `SoundCloudIframeRenderer.canPlayType` (soundcloud.js lines 129-133). -/
def scCanPlayType (type_ : String) : Bool :=
  decide (jsIndexOf ["video/soundcloud", "video/x-soundcloud"] type_ > -1)

/-
The `create` closure of each adapter.  Cached fields keep JavaScript's
dynamic typing (`JsVal`), since the setters store whatever value they are
handed.  `Effect` collects the observable behaviour of one operation.
-/

/-- An event dispatched on the owning media element: its type name, the
`setTimeout` delay in milliseconds (0 when dispatched directly), and the
`message` field when one is assigned. -/
structure Ev where
  name : String
  delayMs : Nat
  message : Option String
deriving DecidableEq, Repr

/-- An exception escaping a callback. -/
inductive JsErr where
  | referenceError (ident : String)
  | typeError (msg : String)
deriving DecidableEq, Repr

/-- Observable behaviour of one operation: remote widget calls, events
dispatched on the owning media element, escaping exceptions, console logs. -/
structure Effect (C : Type) where
  remote : List C := []
  events : List Ev := []
  thrown : List JsErr := []
  logs : List String := []
deriving DecidableEq, Repr

/-- Sequential composition of effects. -/
def Effect.app {C : Type} (a b : Effect C) : Effect C :=
  { remote := a.remote ++ b.remote
    events := a.events ++ b.events
    thrown := a.thrown ++ b.thrown
    logs := a.logs ++ b.logs }

/-- Resolution of one promise-returning remote call. -/
inductive Outcome where
  | ok
  | fail (name message : String)
deriving DecidableEq, Repr

/-- One entry of `apiStack`: `{type: 'set', propName, value}` or
`{type: 'call', methodName}`. -/
inductive StackItem where
  | set (propName : String) (value : JsVal)
  | call (methodName : String)
deriving DecidableEq, Repr

/-- A setter or method invocation observed during replay. -/
inductive Invocation where
  | setInv (propName : String) (value : JsVal)
  | callInv (methodName : String)
deriving DecidableEq, Repr

/-- The invocation the ready handler performs for a stack item
(`vimeo['set' + capName](stackItem.value)` / `vimeo[stackItem.methodName]()`). -/
def StackItem.toInv : StackItem → Invocation
  | .set p v => .setInv p v
  | .call m => .callInv m

/-- Remote calls on the Vimeo player object. -/
inductive VimeoCall where
  | setVolume (v : JsVal)
  | setCurrentTime (v : JsVal)
  | loadVideo (id : JsIdResult)
  | setLoop (v : JsVal)
  | play
  | pause
  | getVideoUrl
  | on (event : String)
deriving DecidableEq, Repr

/-- Identifiers in scope inside `vimeoApi.errorHandler` (vimeo.js lines
148-152): its parameters and local, the module's import bindings and
module-level `let`s, and the host/bundle-provided globals the module uses
throughout (`win`, `doc`, `Vimeo`, `console`, `setTimeout`).  The
`create` parameter `mediaElement` is not among them: `errorHandler` is
declared at module scope, outside `create`, and nothing defines a global
of that name. -/
def vimeoErrorHandlerScope : List String :=
  ["error", "target", "event",
   "window", "document", "mejs", "renderer", "createEvent", "addEvent",
   "typeChecks", "vimeoApi", "vimeoIframeRenderer",
   "win", "doc", "Vimeo", "console", "setTimeout"]

/-- `vimeoApi.errorHandler` (vimeo.js lines 148-152): builds an `error`
event with message `error.name + COLON + error.message` on `target`, then
evaluates `mediaElement.dispatchEvent(event)`.  In strict module code an
identifier with no binding raises a `ReferenceError`, so the dispatch is
reached only if `mediaElement` resolves. -/
def vimeoErrorHandler (errName errMessage : String) : Effect VimeoCall :=
  if vimeoErrorHandlerScope.contains "mediaElement" then
    { events := [⟨"error", 0, some (errName ++ ": " ++ errMessage)⟩] }
  else
    { thrown := [.referenceError "mediaElement"] }

/-- The local state of one Vimeo adapter (`create`, vimeo.js lines
189-209): the pending-command stack, the readiness flag, the remote
player reference (`none` models `null`), the truthiness of the owning
element's `autoplay` attribute, and the cached playback fields. -/
structure VimeoState where
  apiStack : List StackItem
  vimeoApiReady : Bool
  vimeoPlayer : Option Nat
  autoplayAttr : Bool
  paused : JsVal
  volume : JsVal
  oldVolume : JsVal
  currentTime : JsVal
  bufferedTime : JsVal
  ended : JsVal
  duration : JsVal
  url : JsVal
deriving DecidableEq, Repr

/-- Initial adapter state (vimeo.js lines 193-204): `paused = true`,
`volume = 1`, `oldVolume = volume`, numeric caches 0, `ended = false`,
`url` the empty string. -/
def vimeoInit : VimeoState :=
  { apiStack := []
    vimeoApiReady := false
    vimeoPlayer := none
    autoplayAttr := false
    paused := .bool true
    volume := .num 1
    oldVolume := .num 1
    currentTime := .num 0
    bufferedTime := .num 0
    ended := .bool false
    duration := .num 0
    url := .str "" }

/-- Result of one setter/method invocation. -/
structure VmStep where
  state : VimeoState
  eff : Effect VimeoCall
deriving DecidableEq, Repr

/-- The synthesized getter `vimeo['get' + capName]` (vimeo.js lines
219-262): `null` and no remote call when `vimeoPlayer` is `null`;
otherwise the cached field per property (`muted` is `volume === 0`,
`src` also issues `getVideoUrl`, `buffered` is the synthetic range
object, unknown properties fall through to `value = null`). -/
def vimeoGetProp (propName : String) (s : VimeoState) : JsVal × List VimeoCall :=
  match s.vimeoPlayer with
  | none => (.null, [])
  | some _ =>
    if propName = "currentTime" then (s.currentTime, [])
    else if propName = "duration" then (s.duration, [])
    else if propName = "volume" then (s.volume, [])
    else if propName = "muted" then (.bool (jsStrictEq s.volume (.num 0)), [])
    else if propName = "paused" then (s.paused, [])
    else if propName = "ended" then (s.ended, [])
    else if propName = "src" then (s.url, [.getVideoUrl])
    else if propName = "buffered" then
      (.buffered (.num 0) (jsMul s.bufferedTime s.duration) 1, [])
    else (.null, [])

/-- The url argument of the `src` setters:
`typeof value === 'string' ? value : value[0].src`; a value that is
neither yields a `TypeError` when `value[0].src` is read. -/
def srcArg : JsVal → Except JsErr String
  | .str v => .ok v
  | .srcObj v => .ok v
  | _ => .error (.typeError "cannot read src of value[0]")

/-- The synthesized setter `vimeo['set' + capName]` (vimeo.js lines
264-346).  When `vimeoPlayer` is `null` the command is pushed onto
`apiStack` and nothing else happens.  When ready, the property's remote
call is issued; `out` resolves its promise: the `.then` branch updates
the cache and schedules the corresponding event after 50 ms, the
`['catch']` branch runs `vimeoApi.errorHandler`.  Unknown properties are
logged as unsupported. -/
def vimeoSetProp (propName : String) (value : JsVal) (out : Outcome)
    (s : VimeoState) : VmStep :=
  match s.vimeoPlayer with
  | none =>
    { state := { s with apiStack := s.apiStack ++ [.set propName value] }
      eff := {} }
  | some _ =>
    if propName = "src" then
      match srcArg value with
      | .error e => { state := s, eff := { thrown := [e] } }
      | .ok u =>
        let vid := getVimeoId (.str u)
        match out with
        | .ok =>
          { state := s
            eff := { remote := [.loadVideo vid] ++
                       (if s.autoplayAttr then [.play] else []) } }
        | .fail n m =>
          { state := s
            eff := Effect.app { remote := [.loadVideo vid] } (vimeoErrorHandler n m) }
    else if propName = "currentTime" then
      match out with
      | .ok =>
        { state := { s with currentTime := value }
          eff := { remote := [.setCurrentTime value]
                   events := [⟨"timeupdate", 50, none⟩] } }
      | .fail n m =>
        { state := s
          eff := Effect.app { remote := [.setCurrentTime value] } (vimeoErrorHandler n m) }
    else if propName = "volume" then
      match out with
      | .ok =>
        { state := { s with volume := value, oldVolume := value }
          eff := { remote := [.setVolume value]
                   events := [⟨"volumechange", 50, none⟩] } }
      | .fail n m =>
        { state := s
          eff := Effect.app { remote := [.setVolume value] } (vimeoErrorHandler n m) }
    else if propName = "loop" then
      match out with
      | .ok => { state := s, eff := { remote := [.setLoop value] } }
      | .fail n m =>
        { state := s
          eff := Effect.app { remote := [.setLoop value] } (vimeoErrorHandler n m) }
    else if propName = "muted" then
      if jsTruthy value then
        match out with
        | .ok =>
          { state := { s with volume := .num 0 }
            eff := { remote := [.setVolume (.num 0)]
                     events := [⟨"volumechange", 50, none⟩] } }
        | .fail n m =>
          { state := s
            eff := Effect.app { remote := [.setVolume (.num 0)] } (vimeoErrorHandler n m) }
      else
        match out with
        | .ok =>
          { state := { s with volume := s.oldVolume }
            eff := { remote := [.setVolume s.oldVolume]
                     events := [⟨"volumechange", 50, none⟩] } }
        | .fail n m =>
          { state := s
            eff := Effect.app { remote := [.setVolume s.oldVolume] } (vimeoErrorHandler n m) }
    else
      { state := s, eff := { logs := ["vimeo " ++ propName ++ " UNSUPPORTED property"] } }

/-- The synthesized method wrapper (vimeo.js lines 360-378): queue when
not ready; otherwise `play`/`pause` call the player, `load` returns
`null`, anything else returns `undefined`. -/
def vimeoMethod (methodName : String) (s : VimeoState) : VmStep :=
  match s.vimeoPlayer with
  | none =>
    { state := { s with apiStack := s.apiStack ++ [.call methodName] }
      eff := {} }
  | some _ =>
    if methodName = "play" then { state := s, eff := { remote := [.play] } }
    else if methodName = "pause" then { state := s, eff := { remote := [.pause] } }
    else { state := s, eff := {} }

/-- Dispatch of one replayed stack item by the ready handler. -/
def vimeoDispatch : StackItem → Outcome → VimeoState → VmStep
  | .set p v, out, s => vimeoSetProp p v out s
  | .call m, _, s => vimeoMethod m s

/-- The replay loop of the ready handler (vimeo.js lines 393-405),
instrumented with the list of setter/method invocations it performs.
`outs i` resolves the promise issued while replaying item `i`. -/
def vimeoReplay (outs : Nat → Outcome) :
    Nat → List StackItem → VimeoState → VimeoState × List Invocation × Effect VimeoCall
  | _, [], s => (s, [], {})
  | i, item :: rest, s =>
    let st := vimeoDispatch item (outs i) s
    let r := vimeoReplay outs (i + 1) rest st.state
    (r.1, item.toInv :: r.2.1, st.eff.app r.2.2)

/-- Event registrations performed on the player after replay
(vimeo.js lines 423-501). -/
def vimeoBindCalls : List VimeoCall :=
  [.on "loaded", .on "progress", .on "timeupdate", .on "play", .on "pause", .on "ended"]

/-- The startup events dispatched at the end of the ready handler
(vimeo.js lines 504-509). -/
def vimeoInitEvents : List Ev :=
  [⟨"rendererready", 0, none⟩, ⟨"loadeddata", 0, none⟩,
   ⟨"loadedmetadata", 0, none⟩, ⟨"canplay", 0, none⟩]

/-- The `__ready__` handler (vimeo.js lines 387-510): set the ready flag
and the player reference, replay `apiStack` front to back, then wire the
player events and dispatch the startup events.  The stack is not modified
after the replay loop. -/
def vimeoOnReady (outs : Nat → Outcome) (w : Nat) (s : VimeoState) :
    VimeoState × List Invocation × Effect VimeoCall :=
  let s1 := { s with vimeoApiReady := true, vimeoPlayer := some w }
  let r := vimeoReplay outs 0 s1.apiStack s1
  (r.1, r.2.1, r.2.2.app { remote := vimeoBindCalls, events := vimeoInitEvents })

/-- A command issued on the adapter surface before readiness. -/
inductive PreCmd where
  | pset (propName : String) (value : JsVal)
  | pcall (methodName : String)
deriving DecidableEq, Repr

/-- The stack entry a pre-ready command produces. -/
def PreCmd.toItem : PreCmd → StackItem
  | .pset p v => .set p v
  | .pcall m => .call m

/-- The replay invocation expected for a pre-ready command. -/
def PreCmd.toInv : PreCmd → Invocation
  | .pset p v => .setInv p v
  | .pcall m => .callInv m

/-- Issue one command on the adapter surface (outcome irrelevant before
readiness: nothing remote is called). -/
def vimeoIssue (s : VimeoState) : PreCmd → VimeoState
  | .pset p v => (vimeoSetProp p v .ok s).state
  | .pcall m => (vimeoMethod m s).state

/-- Issue a sequence of commands on the adapter surface. -/
def vimeoRunPre (s : VimeoState) (cmds : List PreCmd) : VimeoState :=
  cmds.foldl vimeoIssue s

/-
SoundCloud adapter (`create`, soundcloud.js lines 142-432).  The remote
widget API is callback-based, not promise-based: the setters issue
fire-and-forget calls and none of them updates the cached fields.
-/

/-- Remote calls on the SoundCloud widget object. -/
inductive SCCall where
  | load (url : String)
  | seekTo (ms : JsVal)
  | setVolume (v : JsVal)
  | play
  | pause
  | getPosition
  | getDuration
  | bind (event : String)
deriving DecidableEq, Repr

/-- The local state of one SoundCloud adapter (soundcloud.js lines
152-165): pending-command stack, readiness flag, widget reference
(`none` models `null`), the iframe's `src` (set synchronously during
`create`, `none` while `scIframe` is still `null`), and the cached
playback fields. -/
structure SCState where
  apiStack : List StackItem
  scPlayerReady : Bool
  scPlayer : Option Nat
  scIframeSrc : Option String
  currentTime : JsVal
  duration : JsVal
  bufferedTime : JsVal
  paused : JsVal
  volume : JsVal
  muted : JsVal
  ended : JsVal
deriving DecidableEq, Repr

/-- Initial adapter state (soundcloud.js lines 157-164, then lines
393-399 assign the iframe and its `src` from `mediaFiles[0].src`). -/
def scInit (srcUrl : String) : SCState :=
  { apiStack := []
    scPlayerReady := false
    scPlayer := none
    scIframeSrc := some srcUrl
    currentTime := .num 0
    duration := .num 0
    bufferedTime := .num 0
    paused := .bool true
    volume := .num 1
    muted := .bool false
    ended := .bool false }

/-- Result of one SoundCloud setter/method invocation. -/
structure SCStepR where
  state : SCState
  eff : Effect SCCall
deriving DecidableEq, Repr

/-- The synthesized getter `sc['get' + capName]` (soundcloud.js lines
176-218): `null` and no remote call when `scPlayer` is `null`; otherwise
the cached field per property (`src` reads the iframe's `src`, or the
empty string when the iframe is `null`; unknown properties fall through
to `value = null`). -/
def scGetProp (propName : String) (s : SCState) : JsVal × List SCCall :=
  match s.scPlayer with
  | none => (.null, [])
  | some _ =>
    if propName = "currentTime" then (s.currentTime, [])
    else if propName = "duration" then (s.duration, [])
    else if propName = "volume" then (s.volume, [])
    else if propName = "paused" then (s.paused, [])
    else if propName = "ended" then (s.ended, [])
    else if propName = "muted" then (s.muted, [])
    else if propName = "buffered" then
      (.buffered (.num 0) (jsMul s.bufferedTime s.duration) 1, [])
    else if propName = "src" then
      (match s.scIframeSrc with
       | some u => (.str u, [])
       | none => (.str "", []))
    else (.null, [])

/-- The synthesized setter `sc['set' + capName]` (soundcloud.js lines
220-265).  When `scPlayer` is `null` the command is pushed onto
`apiStack`.  When ready: `src` calls `scPlayer.load(url)`,
`currentTime` calls `seekTo(value * 1000)`, `muted` calls
`setVolume(0)` or `setVolume(1)` and schedules `volumechange` after
50 ms, `volume` calls `setVolume(value)` and schedules `volumechange`
after 50 ms, anything else is logged.  No branch writes a cached field. -/
def scSetProp (propName : String) (value : JsVal) (s : SCState) : SCStepR :=
  match s.scPlayer with
  | none =>
    { state := { s with apiStack := s.apiStack ++ [.set propName value] }
      eff := {} }
  | some _ =>
    if propName = "src" then
      match srcArg value with
      | .error e => { state := s, eff := { thrown := [e] } }
      | .ok u => { state := s, eff := { remote := [.load u] } }
    else if propName = "currentTime" then
      { state := s, eff := { remote := [.seekTo (jsMul value (.num 1000))] } }
    else if propName = "muted" then
      { state := s
        eff := { remote := [.setVolume (if jsTruthy value then .num 0 else .num 1)]
                 events := [⟨"volumechange", 50, none⟩] } }
    else if propName = "volume" then
      { state := s
        eff := { remote := [.setVolume value]
                 events := [⟨"volumechange", 50, none⟩] } }
    else
      { state := s, eff := { logs := ["sc " ++ propName ++ " UNSUPPORTED property"] } }

/-- The synthesized method wrapper (soundcloud.js lines 279-297). -/
def scMethod (methodName : String) (s : SCState) : SCStepR :=
  match s.scPlayer with
  | none =>
    { state := { s with apiStack := s.apiStack ++ [.call methodName] }
      eff := {} }
  | some _ =>
    if methodName = "play" then { state := s, eff := { remote := [.play] } }
    else if methodName = "pause" then { state := s, eff := { remote := [.pause] } }
    else { state := s, eff := {} }

/-- Dispatch of one replayed stack item by the ready handler. -/
def scDispatch : StackItem → SCState → SCStepR
  | .set p v, s => scSetProp p v s
  | .call m, s => scMethod m s

/-- The replay loop of the ready handler (soundcloud.js lines 312-324),
instrumented with the invocations it performs. -/
def scReplay : List StackItem → SCState → SCState × List Invocation × Effect SCCall
  | [], s => (s, [], {})
  | item :: rest, s =>
    let st := scDispatch item s
    let r := scReplay rest st.state
    (r.1, item.toInv :: r.2.1, st.eff.app r.2.2)

/-- Event registrations performed on the widget after replay
(soundcloud.js lines 327-381). -/
def scBindCalls : List SCCall :=
  [.bind "PLAY_PROGRESS", .bind "PAUSE", .bind "PLAY",
   .bind "FINISHED", .bind "READY", .bind "LOAD_PROGRESS"]

/-- The startup events dispatched at the end of the ready handler
(soundcloud.js lines 384-389). -/
def scInitEvents : List Ev :=
  [⟨"rendererready", 0, none⟩, ⟨"loadeddata", 0, none⟩,
   ⟨"loadedmetadata", 0, none⟩, ⟨"canplay", 0, none⟩]

/-- The `__ready__` handler (soundcloud.js lines 306-390): set the ready
flag and the widget reference, replay `apiStack` front to back, then
bind the widget events and dispatch the startup events.  The stack is
not modified after the replay loop. -/
def scOnReady (w : Nat) (s : SCState) :
    SCState × List Invocation × Effect SCCall :=
  let s1 := { s with scPlayerReady := true, scPlayer := some w }
  let r := scReplay s1.apiStack s1
  (r.1, r.2.1, r.2.2.app { remote := scBindCalls, events := scInitEvents })

/-- A remote widget callback event together with the values the nested
asynchronous queries (`getPosition` / `getDuration`) report. -/
inductive SCEvt where
  | playProgress (posMs : ℚ)
  | pauseEvt
  | playEvt
  | finished
  | readyEvt (durMs : ℚ)
  | loadProgress (lp : ℚ) (dur : ℚ)
deriving DecidableEq, Repr

/-- The widget event handlers bound by the ready handler (soundcloud.js
lines 327-381).  `PLAY_PROGRESS` clears `paused`/`ended` and updates
`currentTime` from `getPosition`; `PAUSE`/`PLAY`/`FINISHED` update
`paused`/`ended`; `READY` updates `duration` from `getDuration`;
`LOAD_PROGRESS` updates `bufferedTime` (guarded by `duration > 0`) and
then `duration`.  None of them writes `muted` or `volume`. -/
def scHandleEvt (e : SCEvt) (s : SCState) : SCState × Effect SCCall :=
  match e with
  | .playProgress posMs =>
    ({ s with paused := .bool false, ended := .bool false,
              currentTime := .num (posMs / 1000) },
     { remote := [.getPosition], events := [⟨"timeupdate", 0, none⟩] })
  | .pauseEvt =>
    ({ s with paused := .bool true },
     { events := [⟨"pause", 0, none⟩] })
  | .playEvt =>
    ({ s with paused := .bool false, ended := .bool false },
     { events := [⟨"play", 0, none⟩] })
  | .finished =>
    ({ s with paused := .bool false, ended := .bool true },
     { events := [⟨"ended", 0, none⟩] })
  | .readyEvt durMs =>
    ({ s with duration := .num (durMs / 1000) },
     { remote := [.getDuration], events := [⟨"loadedmetadata", 0, none⟩] })
  | .loadProgress lp dur =>
    let s1 := if jsGtZero s.duration
      then { s with bufferedTime := jsMul s.duration (.num lp) }
      else s
    let evs := (if jsGtZero s.duration then [⟨"progress", 0, none⟩] else []) ++
      [⟨"loadedmetadata", 0, none⟩]
    ({ s1 with duration := .num dur },
     { remote := [.getDuration, .getDuration], events := evs })

/-- One operation in a run of the SoundCloud adapter: a surface setter,
getter or method call, delivery of the ready signal, or a remote widget
callback event. -/
inductive SCOp where
  | setP (propName : String) (value : JsVal)
  | getP (propName : String)
  | callM (methodName : String)
  | ready (w : Nat)
  | evt (e : SCEvt)
deriving DecidableEq, Repr

/-- State transition of one operation. -/
def scStep (s : SCState) : SCOp → SCState
  | .setP p v => (scSetProp p v s).state
  | .getP _ => s
  | .callM m => (scMethod m s).state
  | .ready w => (scOnReady w s).1
  | .evt e => (scHandleEvt e s).1

/-- Run a sequence of operations from the freshly created adapter. -/
def scExec (srcUrl : String) (ops : List SCOp) : SCState :=
  ops.foldl scStep (scInit srcUrl)

/-- Issue one pre-ready command on the SoundCloud adapter surface. -/
def scIssue (s : SCState) : PreCmd → SCState
  | .pset p v => (scSetProp p v s).state
  | .pcall m => (scMethod m s).state

/-- Issue a sequence of commands on the SoundCloud adapter surface. -/
def scRunPre (s : SCState) (cmds : List PreCmd) : SCState :=
  cmds.foldl scIssue s

/-
External SDK loader (`vimeoApi`, vimeo.js lines 36-153; `SoundCloudApi`,
soundcloud.js lines 31-114, is structurally identical).  `enqueueIframe`
and `createIframe` are ordinary function-valued properties, so inside
them `this` is the API object.  `loadIframeApi` and `iFrameReady` /
`apiReady` are arrow functions, so inside them `this` is the module-level
`this`, a different object: the flags they read and write live on that
object, not on the API object, and the module-level `this` never carries
an `iframeQueue` field.  We model the module-level `this` as an initially
empty extensible object (the lenient CommonJS-interop semantics; under
strict ES-module semantics `this` is `undefined` there and every field
access throws at once, failing even earlier).  A missing field reads as
`undefined`, which is falsy; calling `.length` on it throws a
`TypeError`.
-/

/-- Fields of the `vimeoApi` object literal. `isLoaded` is read by
`enqueueIframe` via `this.isLoaded` but is not a declared field and is
never written on this object, hence `Option Bool` starting absent. -/
structure VimeoApiObj where
  isIframeStarted : Bool
  isIframeLoaded : Bool
  iframeQueue : List Nat
  isLoaded : Option Bool
deriving DecidableEq, Repr

/-- The module-level `this` seen by the arrow functions `loadIframeApi`
and `iFrameReady`: all fields start absent and it has no `iframeQueue`. -/
structure ModuleThis where
  isIframeStarted : Option Bool
  isLoaded : Option Bool
  isIframeLoaded : Option Bool
deriving DecidableEq, Repr

/-- Whole loader state plus its observable actions: number of script-tag
injections, surfaces created via `createIframe` (identified by the
settings id), and exceptions thrown. -/
structure LoaderState where
  api : VimeoApiObj
  modThis : ModuleThis
  scriptInjections : Nat
  created : List Nat
  thrown : List JsErr
deriving DecidableEq, Repr

/-- Truthiness of a possibly-absent boolean field (`undefined` is falsy). -/
def optTruthy : Option Bool → Bool
  | some b => b
  | none => false

/-- Loader state at module initialisation (vimeo.js lines 41-49). -/
def loaderInit : LoaderState :=
  { api := { isIframeStarted := false, isIframeLoaded := false,
             iframeQueue := [], isLoaded := none }
    modThis := { isIframeStarted := none, isLoaded := none, isIframeLoaded := none }
    scriptInjections := 0
    created := []
    thrown := [] }

/-- `vimeoApi.loadIframeApi` (vimeo.js lines 70-93): an arrow function,
so `this` is the module-level `this`.  When `this.isIframeStarted` is
falsy it injects the script tag and sets `this.isIframeStarted = true`. -/
def loadIframeApi (st : LoaderState) : LoaderState :=
  if !optTruthy st.modThis.isIframeStarted then
    { st with scriptInjections := st.scriptInjections + 1
              modThis := { st.modThis with isIframeStarted := some true } }
  else st

/-- `vimeoApi.createIframe` (vimeo.js lines 115-118): builds the player
and invokes the adapter's `__ready__` callback; we record the created id. -/
def createIframe (st : LoaderState) (settings : Nat) : LoaderState :=
  { st with created := st.created ++ [settings] }

/-- `vimeoApi.enqueueIframe` (vimeo.js lines 56-64): an ordinary method,
so `this` is `vimeoApi`.  `this.isLoaded` is absent on `vimeoApi`
(nothing ever writes it there), so the test reads `undefined`. -/
def enqueueIframe (st : LoaderState) (settings : Nat) : LoaderState :=
  if optTruthy st.api.isLoaded then
    createIframe st settings
  else
    let st1 := loadIframeApi st
    { st1 with api := { st1.api with iframeQueue := st1.api.iframeQueue ++ [settings] } }

/-- `vimeoApi.iFrameReady` (vimeo.js lines 99-108): an arrow function, so
`this` is the module-level `this`.  It sets `this.isLoaded` and
`this.isIframeLoaded` there, then evaluates
`this.iframeQueue.length`; the module-level `this` has no
`iframeQueue`, so reading `.length` of `undefined` throws a `TypeError`
and no queued surface is created. -/
def iFrameReady (st : LoaderState) : LoaderState :=
  let st1 := { st with
    modThis := { st.modThis with isLoaded := some true, isIframeLoaded := some true } }
  { st1 with thrown := st1.thrown ++ [.typeError "cannot read length of undefined iframeQueue"] }

/-
Helper lemmas about the pending-command queue and the replay loop.
-/

/-- Replaying a queued command invokes exactly the setter/method it was
queued for. -/
theorem toInv_toItem (c : PreCmd) : StackItem.toInv (PreCmd.toItem c) = PreCmd.toInv c := by
  cases c <;> rfl

/-- Commands issued before readiness are appended to the stack in
issuance order and leave the player reference `null` (Vimeo). -/
theorem vimeoRunPre_stack (cmds : List PreCmd) (s : VimeoState)
    (h : s.vimeoPlayer = none) :
    (vimeoRunPre s cmds).apiStack = s.apiStack ++ cmds.map PreCmd.toItem ∧
    (vimeoRunPre s cmds).vimeoPlayer = none := by
  induction cmds generalizing s with
  | nil => simp [vimeoRunPre, h]
  | cons c rest ih =>
    have hstep : (vimeoIssue s c).apiStack = s.apiStack ++ [c.toItem] ∧
        (vimeoIssue s c).vimeoPlayer = none := by
      cases c <;> simp [vimeoIssue, vimeoSetProp, vimeoMethod, PreCmd.toItem, h]
    have hrec := ih (vimeoIssue s c) hstep.2
    have hfold : vimeoRunPre s (c :: rest) = vimeoRunPre (vimeoIssue s c) rest := by
      simp [vimeoRunPre]
    refine ⟨?_, ?_⟩
    · rw [hfold, hrec.1, hstep.1]
      simp
    · rw [hfold]
      exact hrec.2

/-- Commands issued before readiness are appended to the stack in
issuance order and leave the widget reference `null` (SoundCloud). -/
theorem scRunPre_stack (cmds : List PreCmd) (s : SCState)
    (h : s.scPlayer = none) :
    (scRunPre s cmds).apiStack = s.apiStack ++ cmds.map PreCmd.toItem ∧
    (scRunPre s cmds).scPlayer = none := by
  induction cmds generalizing s with
  | nil => simp [scRunPre, h]
  | cons c rest ih =>
    have hstep : (scIssue s c).apiStack = s.apiStack ++ [c.toItem] ∧
        (scIssue s c).scPlayer = none := by
      cases c <;> simp [scIssue, scSetProp, scMethod, PreCmd.toItem, h]
    have hrec := ih (scIssue s c) hstep.2
    have hfold : scRunPre s (c :: rest) = scRunPre (scIssue s c) rest := by
      simp [scRunPre]
    refine ⟨?_, ?_⟩
    · rw [hfold, hrec.1, hstep.1]
      simp
    · rw [hfold]
      exact hrec.2

/-- The Vimeo replay loop performs exactly one invocation per stack item,
in stack order. -/
theorem vimeoReplay_invs (outs : Nat → Outcome) (i : Nat) (items : List StackItem)
    (s : VimeoState) :
    (vimeoReplay outs i items s).2.1 = items.map StackItem.toInv := by
  induction items generalizing i s with
  | nil => rfl
  | cons a rest ih => simp [vimeoReplay, ih]

/-- The SoundCloud replay loop performs exactly one invocation per stack
item, in stack order. -/
theorem scReplay_invs (items : List StackItem) (s : SCState) :
    (scReplay items s).2.1 = items.map StackItem.toInv := by
  induction items generalizing s with
  | nil => rfl
  | cons a rest ih => simp [scReplay, ih]

/-- A ready-mode Vimeo dispatch never touches `apiStack` or the player
reference. -/
theorem vimeoDispatch_ready_stack (item : StackItem) (out : Outcome)
    (s : VimeoState) (w : Nat) (h : s.vimeoPlayer = some w) :
    (vimeoDispatch item out s).state.apiStack = s.apiStack ∧
    (vimeoDispatch item out s).state.vimeoPlayer = some w := by
  cases item with
  | set p v =>
    simp only [vimeoDispatch, vimeoSetProp, h]
    repeat' split
    all_goals simp [h]
  | call m =>
    simp only [vimeoDispatch, vimeoMethod, h]
    repeat' split
    all_goals simp [h]

/-- A ready-mode SoundCloud dispatch leaves the state unchanged. -/
theorem scDispatch_ready_state (item : StackItem) (s : SCState) (w : Nat)
    (h : s.scPlayer = some w) : (scDispatch item s).state = s := by
  cases item with
  | set p v =>
    simp only [scDispatch, scSetProp, h]
    repeat' split
    all_goals simp
  | call m =>
    simp only [scDispatch, scMethod, h]
    repeat' split
    all_goals simp

/-- The Vimeo replay loop leaves `apiStack` and the player reference
unchanged when the player is ready. -/
theorem vimeoReplay_ready_stack (outs : Nat → Outcome) (i : Nat)
    (items : List StackItem) (s : VimeoState) (w : Nat)
    (h : s.vimeoPlayer = some w) :
    (vimeoReplay outs i items s).1.apiStack = s.apiStack ∧
    (vimeoReplay outs i items s).1.vimeoPlayer = some w := by
  induction items generalizing i s with
  | nil => exact ⟨rfl, h⟩
  | cons a rest ih =>
    have hd := vimeoDispatch_ready_stack a (outs i) s w h
    have hrec := ih (i + 1) (vimeoDispatch a (outs i) s).state hd.2
    refine ⟨?_, hrec.2⟩
    rw [show (vimeoReplay outs i (a :: rest) s).1 =
      (vimeoReplay outs (i + 1) rest (vimeoDispatch a (outs i) s).state).1 from rfl]
    rw [hrec.1, hd.1]

/-- The SoundCloud replay loop leaves the state unchanged when the widget
is ready. -/
theorem scReplay_ready_state (items : List StackItem) (s : SCState) (w : Nat)
    (h : s.scPlayer = some w) : (scReplay items s).1 = s := by
  induction items generalizing s with
  | nil => rfl
  | cons a rest ih =>
    have hd := scDispatch_ready_state a s w h
    rw [show (scReplay (a :: rest) s).1 = (scReplay rest (scDispatch a s).state).1 from rfl]
    rw [hd]
    exact ih s h

/-- Claim C1: for every sequence of property-set and method-call commands
issued on an adapter before the remote widget becomes ready, the replay
triggered by the ready signal re-invokes the corresponding setters and
methods in exactly the original issuance order (FIFO), and each queued
command is replayed exactly once — for the Vimeo and the SoundCloud
adapter, for every promise-outcome assignment and every widget handle. -/
theorem replay_fifo_exactly_once (cmds : List PreCmd) (outs : Nat → Outcome)
    (w : Nat) (u : String) :
    (vimeoOnReady outs w (vimeoRunPre vimeoInit cmds)).2.1 = cmds.map PreCmd.toInv ∧
    (scOnReady w (scRunPre (scInit u) cmds)).2.1 = cmds.map PreCmd.toInv := by
  have hv := vimeoRunPre_stack cmds vimeoInit rfl
  have hs := scRunPre_stack cmds (scInit u) rfl
  have hcomp : (StackItem.toInv ∘ PreCmd.toItem) = PreCmd.toInv :=
    funext fun c => toInv_toItem c
  constructor
  · show (vimeoReplay outs 0 _ _).2.1 = _
    rw [vimeoReplay_invs]
    show ((vimeoRunPre vimeoInit cmds).apiStack).map _ = _
    rw [hv.1]
    simp [vimeoInit, hcomp]
  · show (scReplay _ _).2.1 = _
    rw [scReplay_invs]
    show ((scRunPre (scInit u) cmds).apiStack).map _ = _
    rw [hs.1]
    simp [scInit, hcomp]

/-- Claim C5 counterexample: after the ready-signal replay of one queued
`volume` set-command, the Vimeo pending-command queue is not empty — the
code never clears `apiStack`. -/
theorem vimeo_stack_not_cleared_counterexample :
    ((vimeoOnReady (fun _ => .ok) 1
        (vimeoRunPre vimeoInit [.pset "volume" (.num 2)])).1.apiStack =
      [.set "volume" (.num 2)]) ∧
    ((vimeoOnReady (fun _ => .ok) 1
        (vimeoRunPre vimeoInit [.pset "volume" (.num 2)])).1.apiStack ≠ []) := by
  decide

/-- Claim C5 (amended): after the ready-signal replay, the pending-command
queue is abandoned rather than cleared — it still contains exactly the
originally queued commands (the replay adds and removes nothing), so the
commands are not replayed again only because the code invokes each
adapter's ready callback at most once. -/
theorem replay_abandons_queue (cmds : List PreCmd) (outs : Nat → Outcome)
    (w : Nat) (u : String) :
    (vimeoOnReady outs w (vimeoRunPre vimeoInit cmds)).1.apiStack =
      cmds.map PreCmd.toItem ∧
    (scOnReady w (scRunPre (scInit u) cmds)).1.apiStack =
      cmds.map PreCmd.toItem := by
  have hv := vimeoRunPre_stack cmds vimeoInit rfl
  have hs := scRunPre_stack cmds (scInit u) rfl
  constructor
  · show (vimeoReplay outs 0 _ _).1.apiStack = _
    rw [(vimeoReplay_ready_stack outs 0 _ _ w rfl).1]
    show (vimeoRunPre vimeoInit cmds).apiStack = _
    rw [hv.1]
    simp [vimeoInit]
  · show (scReplay _ _).1.apiStack = _
    rw [scReplay_ready_state _ _ w rfl]
    show (scRunPre (scInit u) cmds).apiStack = _
    rw [hs.1]
    simp [scInit]

/-- Claim C2 counterexample: on a ready SoundCloud adapter whose volume
was previously set to 2, setting `muted` to `true` and then to `false`
leaves the cached volume at its initial value 1 (the setter never wrote
it) and issues the hardcoded remote call `setVolume(1)` rather than
restoring 2. -/
theorem sc_mute_cycle_counterexample :
    (let s := scExec "https://soundcloud.com/a/b"
        [.ready 1, .setP "volume" (.num 2), .setP "muted" (.bool true)]
     let r := scSetProp "muted" (.bool false) s
     r.state.volume = .num 1 ∧ r.state.volume ≠ .num 2 ∧
     r.eff.remote = [.setVolume (.num 1)]) := by
  decide

/-- Claim C2 (amended): on a ready Vimeo adapter, setting the volume to a
non-zero `v`, then `muted := true`, then `muted := false` (all remote
calls succeeding) restores the cached volume to exactly `v` and issues
the remote call `setVolume(v)`.  On a ready SoundCloud adapter the same
sequence leaves the cached volume untouched (its setters never write the
cache) and issues the hardcoded remote call `setVolume(1)` on unmute. -/
theorem mute_cycle_restores_volume_amended (v : ℚ) (sv : VimeoState)
    (ss : SCState) (w : Nat) (hv : sv.vimeoPlayer = some w)
    (hs : ss.scPlayer = some w) (hnz : v ≠ 0) :
    (let s1 := (vimeoSetProp "volume" (.num v) .ok sv).state
     let s2 := (vimeoSetProp "muted" (.bool true) .ok s1).state
     let r3 := vimeoSetProp "muted" (.bool false) .ok s2
     r3.state.volume = .num v ∧ r3.eff.remote = [.setVolume (.num v)]) ∧
    (let t1 := (scSetProp "volume" (.num v) ss).state
     let t2 := (scSetProp "muted" (.bool true) t1).state
     let u3 := scSetProp "muted" (.bool false) t2
     u3.state.volume = ss.volume ∧ u3.eff.remote = [.setVolume (.num 1)]) := by
  constructor
  · simp [vimeoSetProp, hv, jsTruthy]
  · simp [scSetProp, hs, jsTruthy]

/-- Concrete instance of the amended claim C2 on freshly readied
adapters with `v = 2`. -/
theorem mute_cycle_restores_volume_amended_witness :
    ({ vimeoInit with vimeoPlayer := some 1 } : VimeoState).vimeoPlayer = some 1 ∧
    ({ scInit "u" with scPlayer := some 1 } : SCState).scPlayer = some 1 ∧
    (2 : ℚ) ≠ 0 ∧
    ((let s1 := (vimeoSetProp "volume" (.num 2) .ok
        { vimeoInit with vimeoPlayer := some 1 }).state
      let s2 := (vimeoSetProp "muted" (.bool true) .ok s1).state
      let r3 := vimeoSetProp "muted" (.bool false) .ok s2
      r3.state.volume = .num 2 ∧ r3.eff.remote = [.setVolume (.num 2)]) ∧
     (let t1 := (scSetProp "volume" (.num 2)
        { scInit "u" with scPlayer := some 1 }).state
      let t2 := (scSetProp "muted" (.bool true) t1).state
      let u3 := scSetProp "muted" (.bool false) t2
      u3.state.volume = ({ scInit "u" with scPlayer := some 1 } : SCState).volume ∧
      u3.eff.remote = [.setVolume (.num 1)])) :=
  ⟨rfl, rfl, by norm_num,
   mute_cycle_restores_volume_amended 2 { vimeoInit with vimeoPlayer := some 1 }
     { scInit "u" with scPlayer := some 1 } 1 rfl rfl (by norm_num)⟩

/-- Claim C3 (code defect): when an asynchronous remote call on a ready
Vimeo adapter fails, the rejection callback runs `vimeoApi.errorHandler`,
which dereferences the identifier `mediaElement`; no binding of that name
is in scope at module level, so a `ReferenceError` escapes the callback
and no `error` event at all is dispatched on the owning media element —
instead of the claimed exactly-one `error` event and no escaping
exception. -/
theorem vimeo_failed_call_raises_no_error_event (n m : String) (t : ℚ)
    (s : VimeoState) (w : Nat) (h : s.vimeoPlayer = some w) :
    (vimeoErrorHandler n m).events = [] ∧
    (vimeoErrorHandler n m).thrown = [.referenceError "mediaElement"] ∧
    (vimeoSetProp "currentTime" (.num t) (.fail n m) s).eff.events = [] ∧
    (vimeoSetProp "currentTime" (.num t) (.fail n m) s).eff.thrown =
      [.referenceError "mediaElement"] := by
  refine ⟨?_, ?_, ?_, ?_⟩ <;>
    simp [vimeoErrorHandler, vimeoErrorHandlerScope, vimeoSetProp, h, Effect.app]

/-- Concrete instance of the claim C3 divergence: a ready adapter whose
`setCurrentTime(30)` call rejects with a `RangeError`. -/
theorem vimeo_failed_call_raises_no_error_event_witness :
    ({ vimeoInit with vimeoPlayer := some 1 } : VimeoState).vimeoPlayer = some 1 ∧
    ((vimeoErrorHandler "RangeError" "time out of range").events = [] ∧
     (vimeoErrorHandler "RangeError" "time out of range").thrown =
       [.referenceError "mediaElement"] ∧
     (vimeoSetProp "currentTime" (.num 30) (.fail "RangeError" "time out of range")
        { vimeoInit with vimeoPlayer := some 1 }).eff.events = [] ∧
     (vimeoSetProp "currentTime" (.num 30) (.fail "RangeError" "time out of range")
        { vimeoInit with vimeoPlayer := some 1 }).eff.thrown =
       [.referenceError "mediaElement"]) :=
  ⟨rfl, vimeo_failed_call_raises_no_error_event "RangeError" "time out of range" 30
    { vimeoInit with vimeoPlayer := some 1 } 1 rfl⟩

/-- Claim C6 counterexample: on a ready SoundCloud adapter, setting the
volume to 2 leaves the cached volume at 1 (the setter performs no cache
update at all) while still dispatching `volumechange` after the delay. -/
theorem sc_setVolume_no_cache_counterexample :
    (let s := scExec "https://soundcloud.com/a/b" [.ready 1]
     let r := scSetProp "volume" (.num 2) s
     r.state.volume = .num 1 ∧ r.state.volume ≠ .num 2 ∧
     r.eff.remote = [.setVolume (.num 2)] ∧
     r.eff.events = [⟨"volumechange", 50, none⟩]) := by
  decide

/-- Claim C6 (amended): on a ready Vimeo adapter, setting the volume
issues the remote `setVolume` call; on success the cached volume becomes
the new value and one `volumechange` event is dispatched after the fixed
50 ms delay; on failure the cache is untouched, no `volumechange` is
dispatched, and the rejection callback invokes the error handler, which
raises a `ReferenceError` instead of dispatching an `error` event.  On a
ready SoundCloud adapter the remote call is fire-and-forget: the cached
volume is never updated and `volumechange` is dispatched after the delay
unconditionally. -/
theorem setVolume_ready_behavior_amended (v : ℚ) (n m : String)
    (sv : VimeoState) (ss : SCState) (w : Nat)
    (hv : sv.vimeoPlayer = some w) (hs : ss.scPlayer = some w) :
    (let r := vimeoSetProp "volume" (.num v) .ok sv
     r.state.volume = .num v ∧ r.eff.remote = [.setVolume (.num v)] ∧
     r.eff.events = [⟨"volumechange", 50, none⟩] ∧ r.eff.thrown = []) ∧
    (let r := vimeoSetProp "volume" (.num v) (.fail n m) sv
     r.state = sv ∧ r.eff.remote = [.setVolume (.num v)] ∧
     r.eff.events = [] ∧ r.eff.thrown = [.referenceError "mediaElement"]) ∧
    (let r := scSetProp "volume" (.num v) ss
     r.state = ss ∧ r.eff.remote = [.setVolume (.num v)] ∧
     r.eff.events = [⟨"volumechange", 50, none⟩]) := by
  refine ⟨?_, ?_, ?_⟩
  · simp [vimeoSetProp, hv]
  · simp [vimeoSetProp, hv, Effect.app, vimeoErrorHandler, vimeoErrorHandlerScope]
  · simp [scSetProp, hs]

/-- Concrete instance of the amended claim C6 with `v = 2` and a
`NetworkError` rejection. -/
theorem setVolume_ready_behavior_amended_witness :
    ({ vimeoInit with vimeoPlayer := some 1 } : VimeoState).vimeoPlayer = some 1 ∧
    ({ scInit "u" with scPlayer := some 1 } : SCState).scPlayer = some 1 ∧
    ((let r := vimeoSetProp "volume" (.num 2) .ok { vimeoInit with vimeoPlayer := some 1 }
      r.state.volume = .num 2 ∧ r.eff.remote = [.setVolume (.num 2)] ∧
      r.eff.events = [⟨"volumechange", 50, none⟩] ∧ r.eff.thrown = []) ∧
     (let r := vimeoSetProp "volume" (.num 2) (.fail "NetworkError" "lost")
        { vimeoInit with vimeoPlayer := some 1 }
      r.state = { vimeoInit with vimeoPlayer := some 1 } ∧
      r.eff.remote = [.setVolume (.num 2)] ∧
      r.eff.events = [] ∧ r.eff.thrown = [.referenceError "mediaElement"]) ∧
     (let r := scSetProp "volume" (.num 2) { scInit "u" with scPlayer := some 1 }
      r.state = { scInit "u" with scPlayer := some 1 } ∧
      r.eff.remote = [.setVolume (.num 2)] ∧
      r.eff.events = [⟨"volumechange", 50, none⟩])) :=
  ⟨rfl, rfl,
   setVolume_ready_behavior_amended 2 "NetworkError" "lost"
     { vimeoInit with vimeoPlayer := some 1 } { scInit "u" with scPlayer := some 1 } 1 rfl rfl⟩

/-- Claim C4: `getVimeoId` returns 59777392 for
`"https://vimeo.com/59777392?x=1"` and for
`"https://player.vimeo.com/video/59777392"`, and returns `null` for the
inputs `null` and `undefined`. -/
theorem getVimeoId_spec_inputs :
    getVimeoId (.str "https://vimeo.com/59777392?x=1") = .num 59777392 ∧
    getVimeoId (.str "https://player.vimeo.com/video/59777392") = .num 59777392 ∧
    getVimeoId .null = .null ∧
    getVimeoId .undef = .null := by
  refine ⟨?_, ?_, rfl, rfl⟩ <;> decide

/-- Claim C7 (code defect): after the script-load callback `iFrameReady`
has run, a further `enqueueIframe` call still appends to the load queue
and creates nothing — the loaded flag is written on the module-level
`this` by the arrow function, never on `vimeoApi`, so
`this.isLoaded` in `enqueueIframe` stays `undefined`; the drain loop
itself throws on the absent `iframeQueue` of the module-level `this`.
Only the script-injection half of the claim holds: across both calls the
tag is injected exactly once, by the first call. -/
theorem vimeo_loader_post_load_divergence :
    (let st1 := enqueueIframe loaderInit 1
     let st2 := iFrameReady st1
     let st3 := enqueueIframe st2 2
     st3.created = [] ∧ st3.api.iframeQueue = [1, 2] ∧
     st3.scriptInjections = 1 ∧ st3.api.isLoaded = none ∧
     st3.thrown = [.typeError "cannot read length of undefined iframeQueue"]) := by
  decide

/-- Positions of a string in a two-element array, as `indexOf` sees them. -/
theorem jsIndexOf_pair_found (a b t : String) :
    jsIndexOf [a, b] t > -1 ↔ (t = a ∨ t = b) := by
  by_cases ha : a = t <;> by_cases hb : b = t <;>
    simp [jsIndexOf, ha, hb, eq_comm]

/-- Claim C8: the Vimeo adapter's `canPlayType` returns true exactly for
`"video/vimeo"` and `"video/x-vimeo"`, and the SoundCloud adapter's
`canPlayType` returns true exactly for `"video/soundcloud"` and
`"video/x-soundcloud"`; both return false for every other input. -/
theorem canPlayType_exact_mime (t : String) :
    (vimeoCanPlayType t = true ↔ (t = "video/vimeo" ∨ t = "video/x-vimeo")) ∧
    (scCanPlayType t = true ↔ (t = "video/soundcloud" ∨ t = "video/x-soundcloud")) := by
  constructor
  · rw [vimeoCanPlayType, decide_eq_true_eq]
    exact jsIndexOf_pair_found "video/vimeo" "video/x-vimeo" t
  · rw [scCanPlayType, decide_eq_true_eq]
    exact jsIndexOf_pair_found "video/soundcloud" "video/x-soundcloud" t

/-- Claim C9: while the remote widget reference is `null`, every
synthesized getter returns `null` and performs no remote call, every
setter only queues its command and performs no remote call, dispatches
no event and throws nothing, and every method wrapper likewise only
queues — on both adapters, for every property and method name. -/
theorem not_ready_accessors_inert (p m : String) (v : JsVal) (out : Outcome)
    (sv : VimeoState) (ss : SCState)
    (hv : sv.vimeoPlayer = none) (hs : ss.scPlayer = none) :
    vimeoGetProp p sv = (.null, []) ∧
    (vimeoSetProp p v out sv).eff = {} ∧
    (vimeoSetProp p v out sv).state =
      { sv with apiStack := sv.apiStack ++ [.set p v] } ∧
    (vimeoMethod m sv).eff = {} ∧
    (vimeoMethod m sv).state = { sv with apiStack := sv.apiStack ++ [.call m] } ∧
    scGetProp p ss = (.null, []) ∧
    (scSetProp p v ss).eff = {} ∧
    (scSetProp p v ss).state = { ss with apiStack := ss.apiStack ++ [.set p v] } ∧
    (scMethod m ss).eff = {} ∧
    (scMethod m ss).state = { ss with apiStack := ss.apiStack ++ [.call m] } := by
  refine ⟨?_, ?_, ?_, ?_, ?_, ?_, ?_, ?_, ?_, ?_⟩ <;>
    simp [vimeoGetProp, vimeoSetProp, vimeoMethod, scGetProp, scSetProp, scMethod, hv, hs]

/-- Concrete instance of claim C9 on the freshly created (not yet ready)
adapters, for the `volume` property and the `play` method. -/
theorem not_ready_accessors_inert_witness :
    vimeoInit.vimeoPlayer = none ∧ (scInit "u").scPlayer = none ∧
    (vimeoGetProp "volume" vimeoInit = (.null, []) ∧
     (vimeoSetProp "volume" (.num 2) .ok vimeoInit).eff = {} ∧
     (vimeoSetProp "volume" (.num 2) .ok vimeoInit).state =
       { vimeoInit with apiStack := vimeoInit.apiStack ++ [.set "volume" (.num 2)] } ∧
     (vimeoMethod "play" vimeoInit).eff = {} ∧
     (vimeoMethod "play" vimeoInit).state =
       { vimeoInit with apiStack := vimeoInit.apiStack ++ [.call "play"] } ∧
     scGetProp "volume" (scInit "u") = (.null, []) ∧
     (scSetProp "volume" (.num 2) (scInit "u")).eff = {} ∧
     (scSetProp "volume" (.num 2) (scInit "u")).state =
       { scInit "u" with apiStack := (scInit "u").apiStack ++ [.set "volume" (.num 2)] } ∧
     (scMethod "play" (scInit "u")).eff = {} ∧
     (scMethod "play" (scInit "u")).state =
       { scInit "u" with apiStack := (scInit "u").apiStack ++ [.call "play"] }) :=
  ⟨rfl, rfl,
   not_ready_accessors_inert "volume" "play" (.num 2) .ok vimeoInit (scInit "u") rfl rfl⟩

/-- No SoundCloud setter branch writes the cached `muted` flag. -/
theorem scSetProp_muted_inv (p : String) (v : JsVal) (s : SCState) :
    (scSetProp p v s).state.muted = s.muted := by
  simp only [scSetProp]
  repeat' split
  all_goals simp

/-- No SoundCloud method wrapper writes the cached `muted` flag. -/
theorem scMethod_muted_inv (m : String) (s : SCState) :
    (scMethod m s).state.muted = s.muted := by
  simp only [scMethod]
  repeat' split
  all_goals simp

/-- The replay loop never writes the cached `muted` flag. -/
theorem scReplay_muted_inv (items : List StackItem) (s : SCState) :
    (scReplay items s).1.muted = s.muted := by
  induction items generalizing s with
  | nil => rfl
  | cons a rest ih =>
    rw [show (scReplay (a :: rest) s).1 = (scReplay rest (scDispatch a s).state).1 from rfl,
      ih]
    cases a with
    | set p v => exact scSetProp_muted_inv p v s
    | call m => exact scMethod_muted_inv m s

/-- No remote widget event handler writes the cached `muted` flag. -/
theorem scHandleEvt_muted_inv (e : SCEvt) (s : SCState) :
    (scHandleEvt e s).1.muted = s.muted := by
  cases e <;> simp [scHandleEvt]
  split <;> simp

/-- No operation of the SoundCloud adapter ever writes the cached `muted`
flag. -/
theorem scStep_muted_inv (s : SCState) (op : SCOp) :
    (scStep s op).muted = s.muted := by
  cases op with
  | setP p v => exact scSetProp_muted_inv p v s
  | getP _ => rfl
  | callM m => exact scMethod_muted_inv m s
  | ready w =>
    show (scReplay _ _).1.muted = s.muted
    rw [scReplay_muted_inv]
  | evt e => exact scHandleEvt_muted_inv e s

/-- Claim C10: in the SoundCloud adapter the cached `muted` flag is never
written after initialization, so after every sequence of operations
(setters, getters, methods, the ready signal, remote widget events) it is
still `false`, and whenever the widget is ready `getMuted` returns
`false` — even after sequences containing `setMuted(true)`. -/
theorem sc_muted_never_written (u : String) (ops : List SCOp) (w : Nat)
    (h : (scExec u ops).scPlayer = some w) :
    (scExec u ops).muted = .bool false ∧
    scGetProp "muted" (scExec u ops) = (.bool false, []) := by
  have hinv : ∀ (l : List SCOp) (s : SCState), (l.foldl scStep s).muted = s.muted := by
    intro l
    induction l with
    | nil => intro s; rfl
    | cons op rest ih =>
      intro s
      rw [List.foldl_cons, ih, scStep_muted_inv]
  have h1 : (scExec u ops).muted = .bool false := by
    rw [scExec, hinv]
    rfl
  refine ⟨h1, ?_⟩
  simp [scGetProp, h, h1]

/-- Concrete instance of claim C10: the sequence ready, `setMuted(true)`,
a play event — `getMuted` still reports `false`. -/
theorem sc_muted_never_written_witness :
    (scExec "u" [.ready 1, .setP "muted" (.bool true), .evt .playEvt]).scPlayer = some 1 ∧
    ((scExec "u" [.ready 1, .setP "muted" (.bool true), .evt .playEvt]).muted = .bool false ∧
     scGetProp "muted" (scExec "u" [.ready 1, .setP "muted" (.bool true), .evt .playEvt]) =
       (.bool false, [])) :=
  ⟨rfl, sc_muted_never_written "u" [.ready 1, .setP "muted" (.bool true), .evt .playEvt] 1 rfl⟩
